import Mathlib

/-!
Verification of the incoming-message demultiplexer (`src/connection/filter.rs`
of steam-vent): the bounded ring buffer and the `MessageFilter` dispatch loop.

The Rust code is shallowly embedded: the `VecDeque`-backed ring buffer becomes
a list together with its current allocation capacity, the five `DashMap`
registration tables become association lists with replace-on-insert semantics,
channel send endpoints become abstract `Sender` values (carrying a liveness
flag standing for "the receive endpoint has not been dropped"), and the
dispatch loop's per-frame if/else chain becomes the function
`MessageFilter.dispatchMessage`, returning the updated filter state plus a
`Route` value recording which branch claimed the frame.
-/

namespace SteamVent

/-! ### Bounded ring buffer (`RingBuffer<T>` in filter.rs, lines 15-49)

The Rust type is `Arc<Mutex<VecDeque<T>>>` created via
`VecDeque::with_capacity(capacity)`.  A `VecDeque` is modelled by the list of
its elements, front first, together with its current allocation capacity
(`deque.capacity()`, which equals the requested capacity until a `push_back`
on a full deque forces growth). -/

structure RingBuffer (T : Type) where
  items : List T
  cap : Nat
  deriving Repr, DecidableEq

/-- `RingBuffer::new(capacity)`: `VecDeque::with_capacity(capacity)` yields an
empty deque whose `capacity()` equals the requested capacity. -/
def RingBuffer.new (T : Type) (capacity : Nat) : RingBuffer T :=
  ⟨[], capacity⟩

/-- Modelled from the Rust standard library (not part of this repository):
the capacity a `VecDeque` grows to when `push_back` is called while
`len == capacity`.  `RawVec` amortized growth takes the maximum of twice the
old capacity, the required length, and a minimal non-zero capacity which is 4
for element sizes up to 1024 bytes (`RawNetMessage` is far below that). -/
def RingBuffer.grownCap (cap : Nat) : Nat :=
  max (max (2 * cap) (cap + 1)) 4

/-- `RingBuffer::push` (filter.rs lines 23-34): if the deque is at capacity,
pop the front element, push the item at the back and return the popped
element; otherwise push at the back and return nothing.  The `push_back`
grows the allocation exactly when the deque is still full after the
`pop_front`, which happens only for capacity 0. -/
def RingBuffer.push {T : Type} (rb : RingBuffer T) (item : T) :
    Option T × RingBuffer T :=
  if rb.items.length = rb.cap then
    let popped := rb.items.head?
    let remaining := rb.items.tail
    let newCap :=
      if remaining.length = rb.cap then RingBuffer.grownCap rb.cap else rb.cap
    (popped, ⟨remaining ++ [item], newCap⟩)
  else
    (none, ⟨rb.items ++ [item], rb.cap⟩)

/-- The `debug_assert!(deque.len() == deque.capacity())` executed in the
at-capacity branch of `RingBuffer::push` (filter.rs line 28): true when the
branch is not taken or the asserted equality holds after the reinsertion. -/
def RingBuffer.pushAssertHolds {T : Type} (rb : RingBuffer T) (item : T) :
    Bool :=
  if rb.items.length = rb.cap then
    (rb.push item).2.items.length == (rb.push item).2.cap
  else
    true

/-- `RingBuffer::pop` (filter.rs lines 37-39): `pop_front`. -/
def RingBuffer.pop {T : Type} (rb : RingBuffer T) : Option T × RingBuffer T :=
  (rb.items.head?, ⟨rb.items.tail, rb.cap⟩)

/-- `RingBuffer::take` (filter.rs lines 43-48): snapshot all retained items in
arrival order, then clear the deque (clearing keeps the allocation). -/
def RingBuffer.take {T : Type} (rb : RingBuffer T) : List T × RingBuffer T :=
  (rb.items, ⟨[], rb.cap⟩)

/-- Push a whole list of items in order, discarding the evicted elements. -/
def RingBuffer.pushAll {T : Type} (rb : RingBuffer T) (xs : List T) :
    RingBuffer T :=
  xs.foldl (fun b x => (b.push x).2) rb

/-- One ring-buffer operation, for stating invariants over arbitrary
operation sequences. -/
inductive RBOp (T : Type) where
  | push (item : T)
  | take
  | pop
  deriving Repr, DecidableEq

/-- Run a sequence of ring-buffer operations from a given state. -/
def RingBuffer.runOps {T : Type} (rb : RingBuffer T) :
    List (RBOp T) → RingBuffer T
  | [] => rb
  | RBOp.push x :: rest => RingBuffer.runOps (rb.push x).2 rest
  | RBOp.take :: rest => RingBuffer.runOps rb.take.2 rest
  | RBOp.pop :: rest => RingBuffer.runOps rb.pop.2 rest

/-! ### Association-list maps (the `DashMap` registration tables)

`DashMap` is a concurrent hash map; each registration table maps one key to
one send endpoint.  It is modelled as an association list normalised on
insert: `insert` replaces any existing entry for the key (last-writer-wins),
`remove` drops the entry for the key if present and returns it, `get` looks
an entry up. -/

/-- `DashMap::get` / lookup by key. -/
def alookup {K V : Type} [DecidableEq K] (k : K) : List (K × V) → Option V
  | [] => none
  | (k', v) :: rest => if k' = k then some v else alookup k rest

/-- Entry removal by key (the map part of `DashMap::remove`). -/
def aremove {K V : Type} [DecidableEq K] (k : K) (m : List (K × V)) :
    List (K × V) :=
  m.filter (fun p => decide (p.1 ≠ k))

/-- `DashMap::insert`: map the key to the new value, replacing any existing
entry for it. -/
def ainsert {K V : Type} [DecidableEq K] (k : K) (v : V) (m : List (K × V)) :
    List (K × V) :=
  (k, v) :: aremove k m

/-! ### Frames, kinds, notifications (`crate::net`, `steam_vent_proto`) -/

/-- Modelled from the spec: the correlation id (`JobId`, a newtype over an
unsigned 64-bit integer from `crate::net`, which is not part of the provided
sources).  "an integer identifier; a distinguished `none` value means `not
correlated to any outstanding request`". -/
abbrev JobId := Nat

/-- Modelled from the spec: the distinguished "none" correlation-id sentinel
(the all-ones 64-bit value in the wire protocol; its numeric value is
irrelevant to routing). -/
def jobIdNone : JobId := 18446744073709551615

/-- Modelled from the spec: the message-kind discriminator
(`steam_vent_proto::MsgKind`, not part of the provided sources), "a
discriminator combining a protocol-level enumerated message type and, for
generic service-method frames, a method-specific sub-discriminator".  Only
its decidable equality is used by the filter, so it is modelled as the
protocol-level code. -/
abbrev MsgKind := Nat

/-- Modelled from the spec: the enumerated message type marking a generic
service-method frame (`EMsg::k_EMsgServiceMethod`). -/
def k_EMsgServiceMethod : MsgKind := 5694

/-- Modelled from the spec: the notification payload
(`crate::message::ServiceMethodNotification`), "carries a textual job/event
name plus method-specific data"; only the name is consulted by the filter. -/
structure ServiceMethodNotification where
  job_name : String
  deriving Repr, DecidableEq

/-- Modelled from the spec: the part of the frame header the filter reads
(`NetMessageHeader.target_job_id` from `crate::net`). -/
structure NetMessageHeader where
  target_job_id : JobId
  deriving Repr, DecidableEq

/-- Modelled from the spec: a decoded frame (`crate::net::RawNetMessage`):
correlation id, kind, and a raw payload decodable on demand into a typed
structure, where decoding may fail.  Decoding is deterministic per frame, so
the payload is represented by the result of
`into_message::<ServiceMethodNotification>()`: `none` models a decode
failure. -/
structure RawNetMessage where
  kind : MsgKind
  header : NetMessageHeader
  notification : Option ServiceMethodNotification
  deriving Repr, DecidableEq

/-- A channel send endpoint (`oneshot`, `mpsc` or `broadcast` sender).  `ch`
identifies the channel; `alive` records whether the receive endpoint is still
held (a send to a dropped receiver fails and the dispatch loop discards the
failure with `.ok()`). -/
structure Sender where
  ch : Nat
  alive : Bool
  deriving Repr, DecidableEq

/-! ### The message filter (`MessageFilter`, filter.rs lines 52-171) -/

/-- The five registration tables plus the ring buffer (filter.rs lines
53-60). -/
structure MessageFilter where
  job_id_filters : List (JobId × Sender)
  job_id_multi_filters : List (JobId × Sender)
  notification_filters : List (String × Sender)
  kind_filters : List (MsgKind × Sender)
  oneshot_kind_filters : List (MsgKind × Sender)
  rest : RingBuffer RawNetMessage
  deriving Repr, DecidableEq

/-- The state `MessageFilter::new` starts the dispatch task with (filter.rs
lines 66-73): empty tables and a ring buffer of capacity 32. -/
def MessageFilter.initial : MessageFilter :=
  ⟨[], [], [], [], [], RingBuffer.new RawNetMessage 32⟩

/-- Which branch of the dispatch chain claimed a frame, and with what
outcome. -/
inductive Route where
  /-- branch 1: removed single-answer-by-id entry, delivery attempted. -/
  | jobId (tx : Sender)
  /-- branch 2: multi-answer-by-id entry, delivery attempted, entry kept. -/
  | jobIdMulti (tx : Sender)
  /-- branch 3: removed single-answer-by-kind entry, delivery attempted. -/
  | oneshotKind (tx : Sender)
  /-- branch 4, decode succeeded and a subscription exists: broadcast. -/
  | toNotification (tx : Sender) (n : ServiceMethodNotification)
  /-- branch 4, decode succeeded but nobody subscribed: frame discarded. -/
  | notificationNoSubscriber (n : ServiceMethodNotification)
  /-- branch 4, decode failed: frame discarded. -/
  | notificationDecodeFailed
  /-- branch 5: fan-out-by-kind broadcast. -/
  | kindFanout (tx : Sender)
  /-- branch 6: pushed into the ring buffer, returning any evicted frame. -/
  | buffered (evicted : Option RawNetMessage)
  deriving Repr, DecidableEq

/-- The per-frame routing chain of the dispatch task (filter.rs lines
82-116), returning the updated filter state and the route taken.  Branch
order as in the source: single-answer-by-id (`remove`, then best-effort
send), multi-answer-by-id (`get`, send, entry kept), single-answer-by-kind
(`remove`, best-effort send), the `k_EMsgServiceMethod` notification branch
(decode, then lookup by decoded job name; no fall-through on failure),
fan-out-by-kind, ring buffer. -/
def MessageFilter.dispatchMessage (f : MessageFilter)
    (message : RawNetMessage) : MessageFilter × Route :=
  match alookup message.header.target_job_id f.job_id_filters with
  | some tx =>
    ({ f with
        job_id_filters := aremove message.header.target_job_id
          f.job_id_filters },
      Route.jobId tx)
  | none =>
    match alookup message.header.target_job_id f.job_id_multi_filters with
    | some tx => (f, Route.jobIdMulti tx)
    | none =>
      match alookup message.kind f.oneshot_kind_filters with
      | some tx =>
        ({ f with
            oneshot_kind_filters := aremove message.kind
              f.oneshot_kind_filters },
          Route.oneshotKind tx)
      | none =>
        if message.kind = k_EMsgServiceMethod then
          match message.notification with
          | some n =>
            match alookup n.job_name f.notification_filters with
            | some tx => (f, Route.toNotification tx n)
            | none => (f, Route.notificationNoSubscriber n)
          | none => (f, Route.notificationDecodeFailed)
        else
          match alookup message.kind f.kind_filters with
          | some tx => (f, Route.kindFanout tx)
          | none =>
            let pushed := f.rest.push message
            ({ f with rest := pushed.2 }, Route.buffered pushed.1)

/-- `MessageFilter::on_job_id` (filter.rs lines 127-131): insert a
single-answer-by-id entry.  The oneshot channel creation is external; the
send endpoint is passed in. -/
def MessageFilter.on_job_id (f : MessageFilter) (id : JobId) (tx : Sender) :
    MessageFilter :=
  { f with job_id_filters := ainsert id tx f.job_id_filters }

/-- `MessageFilter::on_job_id_multi` (filter.rs lines 133-137): insert a
multi-answer-by-id entry. -/
def MessageFilter.on_job_id_multi (f : MessageFilter) (id : JobId)
    (tx : Sender) : MessageFilter :=
  { f with job_id_multi_filters := ainsert id tx f.job_id_multi_filters }

/-- `MessageFilter::complete_job_id_multi` (filter.rs lines 139-141): remove
the multi-answer-by-id entry for the id, if any. -/
def MessageFilter.complete_job_id_multi (f : MessageFilter) (id : JobId) :
    MessageFilter :=
  { f with job_id_multi_filters := aremove id f.job_id_multi_filters }

/-- `MessageFilter::on_notification` (filter.rs lines 143-152):
`entry(job_name).or_insert_with(broadcast channel)` — create the fan-out
entry only on first subscription for the name. -/
def MessageFilter.on_notification (f : MessageFilter) (job_name : String)
    (tx : Sender) : MessageFilter :=
  match alookup job_name f.notification_filters with
  | some _ => f
  | none =>
    { f with notification_filters := ainsert job_name tx f.notification_filters }

/-- `MessageFilter::on_kind` (filter.rs lines 154-160): same
create-on-first-use semantics, keyed by kind. -/
def MessageFilter.on_kind (f : MessageFilter) (kind : MsgKind) (tx : Sender) :
    MessageFilter :=
  match alookup kind f.kind_filters with
  | some _ => f
  | none => { f with kind_filters := ainsert kind tx f.kind_filters }

/-- `MessageFilter::one_kind` (filter.rs lines 162-166): insert a
single-answer-by-kind entry (replacing any existing one). -/
def MessageFilter.one_kind (f : MessageFilter) (kind : MsgKind)
    (tx : Sender) : MessageFilter :=
  { f with oneshot_kind_filters := ainsert kind tx f.oneshot_kind_filters }

/-- `MessageFilter::unprocessed` (filter.rs lines 168-170): drain the ring
buffer. -/
def MessageFilter.unprocessed (f : MessageFilter) :
    List RawNetMessage × MessageFilter :=
  (f.rest.take.1, { f with rest := f.rest.take.2 })

/-! ### The dispatch loop over the frame source (filter.rs lines 76-123) -/

/-- One item pulled from the source stream:
`crate::connection::Result<RawNetMessage>`. -/
inductive SourceItem where
  | ok (message : RawNetMessage)
  | err (e : String)
  deriving Repr, DecidableEq

/-- What the loop did with one source item. -/
inductive LoopEvent where
  | routed (r : Route)
  /-- `Err` branch (filter.rs lines 118-120): the error is logged and the
  loop moves on. -/
  | sourceError (e : String)
  deriving Repr, DecidableEq

/-- Processing of a single source item by the dispatch task: an `Ok` frame
goes through the routing chain, an `Err` is logged and changes nothing. -/
def MessageFilter.processItem (f : MessageFilter) :
    SourceItem → MessageFilter × LoopEvent
  | SourceItem.ok m =>
    ((f.dispatchMessage m).1, LoopEvent.routed (f.dispatchMessage m).2)
  | SourceItem.err e => (f, LoopEvent.sourceError e)

/-- The dispatch loop over a (prefix of the) source sequence: process items
in order, threading the filter state, recording one event per item. -/
def MessageFilter.runLoop (f : MessageFilter) :
    List SourceItem → MessageFilter × List LoopEvent
  | [] => (f, [])
  | it :: rest =>
    let step := f.processItem it
    let tail := MessageFilter.runLoop step.1 rest
    (tail.1, step.2 :: tail.2)

/-! ### Concrete fixtures used by witness theorems -/

def exTxA : Sender := ⟨1, true⟩

def exTxB : Sender := ⟨2, true⟩

def exTxDead : Sender := ⟨3, false⟩

def exNotif : ServiceMethodNotification := ⟨"Foo"⟩

/-- A frame of kind 7 with correlation id 5. -/
def exMsgIdKind : RawNetMessage := ⟨7, ⟨5⟩, none⟩

/-- A frame of kind 7 with correlation id 4. -/
def exMsgMulti : RawNetMessage := ⟨7, ⟨4⟩, none⟩

/-- A service-method frame with a decodable notification payload. -/
def exMsgNotif : RawNetMessage := ⟨k_EMsgServiceMethod, ⟨9⟩, some exNotif⟩

/-- A frame carrying the "none" correlation-id sentinel. -/
def exMsgSentinel : RawNetMessage := ⟨7, ⟨jobIdNone⟩, none⟩

/-- A filter with a single-answer-by-id entry for id 5 and a fan-out entry
for kind 7. -/
def exFilterC1 : MessageFilter :=
  { MessageFilter.initial with
    job_id_filters := [(5, exTxA)]
    kind_filters := [(7, exTxB)] }

/-- A filter with a multi-answer-by-id entry for id 4. -/
def exFilterC4 : MessageFilter :=
  { MessageFilter.initial with job_id_multi_filters := [(4, exTxA)] }

/-- A filter with a notification subscription for "Foo". -/
def exFilterC5 : MessageFilter :=
  { MessageFilter.initial with notification_filters := [("Foo", exTxB)] }

/-- A filter with a single-answer-by-id entry keyed by the sentinel and a
fan-out entry for kind 7. -/
def exFilterC10 : MessageFilter :=
  { MessageFilter.initial with
    job_id_filters := [(jobIdNone, exTxA)]
    kind_filters := [(7, exTxB)] }

/-! ### Helper lemmas about the association-list maps -/

theorem alookup_aremove_self {K V : Type} [DecidableEq K] (k : K)
    (m : List (K × V)) : alookup k (aremove k m) = none := by
  induction m with
  | nil => rfl
  | cons p rest ih =>
    by_cases h : p.1 = k
    · simpa [aremove, List.filter_cons, h] using ih
    · simpa [aremove, List.filter_cons, alookup, h] using ih

theorem aremove_aremove_self {K V : Type} [DecidableEq K] (k : K)
    (m : List (K × V)) : aremove k (aremove k m) = aremove k m := by
  simp [aremove, List.filter_filter]

theorem aremove_cons_self {K V : Type} [DecidableEq K] (k : K) (v : V)
    (m : List (K × V)) : aremove k ((k, v) :: m) = aremove k m := by
  simp [aremove, List.filter_cons]

theorem ainsert_ainsert_self {K V : Type} [DecidableEq K] (k : K)
    (v1 v2 : V) (m : List (K × V)) :
    ainsert k v2 (ainsert k v1 m) = ainsert k v2 m := by
  simp [ainsert, aremove_cons_self, aremove_aremove_self]

theorem alookup_ainsert_self {K V : Type} [DecidableEq K] (k : K) (v : V)
    (m : List (K × V)) : alookup k (ainsert k v m) = some v := by
  simp [ainsert, alookup]

/-! ### Helper lemmas about the dispatch chain -/

theorem dispatch_not_jobId (f : MessageFilter) (m : RawNetMessage)
    (h : alookup m.header.target_job_id f.job_id_filters = none)
    (tx : Sender) : (f.dispatchMessage m).2 ≠ Route.jobId tx := by
  unfold MessageFilter.dispatchMessage
  rw [h]
  (repeat' split) <;> simp_all

theorem dispatch_not_jobIdMulti (f : MessageFilter) (m : RawNetMessage)
    (h : alookup m.header.target_job_id f.job_id_multi_filters = none)
    (tx : Sender) : (f.dispatchMessage m).2 ≠ Route.jobIdMulti tx := by
  unfold MessageFilter.dispatchMessage
  rcases h1 : alookup m.header.target_job_id f.job_id_filters with _ | tx1
  · rw [h]
    (repeat' split) <;> simp_all
  · simp

/-! ### Helper lemmas about the ring buffer -/

theorem RingBuffer.pushAll_cons {T : Type} (rb : RingBuffer T) (x : T)
    (xs : List T) : rb.pushAll (x :: xs) = (rb.push x).2.pushAll xs := rfl

theorem RingBuffer.push_of_full {T : Type} (rb : RingBuffer T) (x : T)
    (hcap : 1 ≤ rb.cap) (hfull : rb.items.length = rb.cap) :
    rb.push x = (rb.items.head?, ⟨rb.items.tail ++ [x], rb.cap⟩) := by
  have htail : ¬ rb.items.tail.length = rb.cap := by
    rw [List.length_tail]
    omega
  simp [RingBuffer.push, hfull, htail]
  exact fun h => absurd h (by omega)

theorem RingBuffer.push_of_not_full {T : Type} (rb : RingBuffer T) (x : T)
    (h : ¬ rb.items.length = rb.cap) :
    rb.push x = (none, ⟨rb.items ++ [x], rb.cap⟩) := by
  simp [RingBuffer.push, h]

theorem RingBuffer.pushAll_eq {T : Type} (N : Nat) (hN : 1 ≤ N) :
    ∀ (xs : List T) (rb : RingBuffer T), rb.cap = N → rb.items.length ≤ N →
      rb.pushAll xs =
        ⟨(rb.items ++ xs).drop (rb.items.length + xs.length - N), N⟩ := by
  intro xs
  induction xs with
  | nil =>
    rintro ⟨its, cp⟩ hcap hlen
    simp only at hcap hlen
    subst cp
    have h0 : its.length - N = 0 := by omega
    simp [RingBuffer.pushAll, h0]
  | cons x xs ih =>
    rintro ⟨its, cp⟩ hcap hlen
    simp only at hcap hlen
    subst cp
    rw [RingBuffer.pushAll_cons]
    by_cases hfull : its.length = N
    · rcases its with _ | ⟨y, ys⟩
      · exfalso
        simp at hfull
        omega
      · have hys : ys.length = N - 1 := by
          simp at hfull
          omega
        have hpush := RingBuffer.push_of_full ⟨y :: ys, N⟩ x (by exact hN)
          (by simpa using hfull)
        rw [hpush]
        simp only [List.tail_cons]
        rw [ih ⟨ys ++ [x], N⟩ rfl (by simp; omega)]
        simp only [RingBuffer.mk.injEq, and_true]
        have hidx1 : (ys ++ [x]).length + xs.length - N = xs.length := by
          simp
          omega
        have hidx2 : (y :: ys).length + (x :: xs).length - N =
            xs.length + 1 := by
          simp
          omega
        rw [hidx1, hidx2, List.cons_append, List.drop_succ_cons]
        simp
    · have hpush := RingBuffer.push_of_not_full ⟨its, N⟩ x
        (by simpa using hfull)
      rw [hpush]
      rw [ih ⟨its ++ [x], N⟩ rfl (by simp at hlen ⊢; omega)]
      simp only [RingBuffer.mk.injEq, and_true]
      have hidx : (its ++ [x]).length + xs.length - N =
          its.length + (x :: xs).length - N := by
        simp
        omega
      rw [hidx, ← List.append_cons]

theorem RingBuffer.runOps_invariant {T : Type} (N : Nat) (hN : 1 ≤ N) :
    ∀ (ops : List (RBOp T)) (rb : RingBuffer T), rb.cap = N →
      rb.items.length ≤ N →
      (rb.runOps ops).cap = N ∧ (rb.runOps ops).items.length ≤ N := by
  intro ops
  induction ops with
  | nil =>
    intro rb hcap hlen
    exact ⟨hcap, hlen⟩
  | cons op rest ih =>
    intro rb hcap hlen
    cases op with
    | push x =>
      simp only [RingBuffer.runOps]
      by_cases hfull : rb.items.length = rb.cap
      · rw [RingBuffer.push_of_full rb x (by omega) hfull]
        apply ih
        · exact hcap
        · simp [List.length_tail]
          omega
      · rw [RingBuffer.push_of_not_full rb x hfull]
        apply ih
        · exact hcap
        · simp
          omega
    | take =>
      simp only [RingBuffer.runOps, RingBuffer.take]
      apply ih
      · exact hcap
      · simp
    | pop =>
      simp only [RingBuffer.runOps, RingBuffer.pop]
      apply ih
      · exact hcap
      · simp [List.length_tail]
        omega

/-! ### Claim theorems -/

/-- Claim C2: for a ring buffer of capacity N ≥ 1, after pushing N+k items
(k ≥ 0) in order exactly the last N items are retained in arrival order; a
push onto a buffer already at capacity evicts and returns the oldest (front)
element, any other push returns nothing; `take` returns all retained items
in arrival order and leaves the buffer empty, so an immediately following
`take` returns the empty sequence. -/
theorem ringBuffer_retention (T : Type) (N k : Nat) (hN : 1 ≤ N)
    (xs : List T) (hlen : xs.length = N + k) :
    ((RingBuffer.new T N).pushAll xs).items = xs.drop k ∧
    (∀ (rb : RingBuffer T) (x : T), 1 ≤ rb.cap → rb.items.length = rb.cap →
      ∃ front, rb.items.head? = some front ∧ (rb.push x).1 = some front) ∧
    (∀ (rb : RingBuffer T) (x : T), rb.items.length ≠ rb.cap →
      (rb.push x).1 = none) ∧
    (∀ rb : RingBuffer T,
      rb.take.1 = rb.items ∧ rb.take.2.items = [] ∧
        rb.take.2.take.1 = []) := by
  refine ⟨?_, ?_, ?_, ?_⟩
  · have h := RingBuffer.pushAll_eq N hN xs (RingBuffer.new T N) rfl
      (by simp [RingBuffer.new])
    rw [h]
    show (([] : List T) ++ xs).drop
      (([] : List T).length + xs.length - N) = xs.drop k
    simp [hlen]
  · intro rb x hcap hfull
    rcases hits : rb.items with _ | ⟨y, ys⟩
    · exfalso
      rw [hits] at hfull
      simp at hfull
      omega
    · refine ⟨y, rfl, ?_⟩
      rw [RingBuffer.push_of_full rb x hcap hfull, hits]
      rfl
  · intro rb x h
    rw [RingBuffer.push_of_not_full rb x h]
  · intro rb
    exact ⟨rfl, rfl, rfl⟩

/-- Witness for claim C2 at capacity 2 with three pushes. -/
theorem ringBuffer_retention_witness :
    ((RingBuffer.new Nat 2).pushAll [1, 2, 3]).items = [2, 3] ∧
    ∃ front, (RingBuffer.mk [1, 2] 2).items.head? = some front ∧
      ((RingBuffer.mk [1, 2] 2).push 3).1 = some front := by
  have h := ringBuffer_retention Nat 2 1 (by decide) [1, 2, 3] (by decide)
  exact ⟨h.1, h.2.1 ⟨[1, 2], 2⟩ 3 (by decide) (by decide)⟩

/-- Claim C6 as stated fails at configured capacity 0: one push yields a
buffer holding one item, which exceeds the configured capacity. -/
theorem ringBuffer_capacity_invariant_cex :
    ¬ (((RingBuffer.new Nat 0).runOps [RBOp.push 7]).items.length ≤ 0) := by
  decide

/-- Claim C6 (amended: the configured capacity must be at least 1, as it is
for the dispatch loop's buffer of capacity 32; a capacity-0 buffer exceeds
its capacity after one push): for configured capacity N ≥ 1 the number of
items held never exceeds N under every sequence of push, take and pop
operations, and insertion past capacity evicts the oldest (front) entry
first. -/
theorem ringBuffer_capacity_invariant (T : Type) (N : Nat) (hN : 1 ≤ N)
    (ops : List (RBOp T)) :
    ((RingBuffer.new T N).runOps ops).items.length ≤ N ∧
    (∀ (rb : RingBuffer T) (x : T), rb.items.length = rb.cap →
      ((rb.push x).1 = rb.items.head? ∧
        (rb.push x).2.items = rb.items.tail ++ [x])) := by
  constructor
  · exact (RingBuffer.runOps_invariant N hN ops (RingBuffer.new T N) rfl
      (by simp [RingBuffer.new])).2
  · intro rb x hfull
    constructor
    · simp [RingBuffer.push, hfull]
    · simp [RingBuffer.push, hfull]

/-- Witness for claim C6 (amended) at capacity 1 with four operations. -/
theorem ringBuffer_capacity_invariant_witness :
    ((RingBuffer.new Nat 1).runOps
      [RBOp.push 1, RBOp.push 2, RBOp.take, RBOp.push 3]).items.length ≤ 1 :=
  (ringBuffer_capacity_invariant Nat 1 (by decide)
    [RBOp.push 1, RBOp.push 2, RBOp.take, RBOp.push 3]).1

/-- Claim C7: when the dispatch loop pulls a source-level error, the error
is logged as an event, the item is lost, the filter state (every
registration table and the ring buffer) is unchanged, and the loop continues
with the remaining items instead of terminating. -/
theorem source_error_skipped (f : MessageFilter) (e : String)
    (rest : List SourceItem) :
    f.processItem (SourceItem.err e) = (f, LoopEvent.sourceError e) ∧
    f.runLoop (SourceItem.err e :: rest) =
      ((f.runLoop rest).1, LoopEvent.sourceError e :: (f.runLoop rest).2) :=
  ⟨rfl, rfl⟩

/-- Claim C8: registering a second single-answer-by-id entry for the same id
(respectively a second single-answer-by-kind entry for the same kind) before
the first resolves does not fail: it silently replaces the earlier entry.
The resulting filter state equals the state produced by the later
registration alone — so the table maps the key to the later endpoint only
and the earlier endpoint can never be delivered to thereafter. -/
theorem registration_last_writer_wins (f : MessageFilter) (id : JobId)
    (kind : MsgKind) (tx1 tx2 : Sender) :
    (f.on_job_id id tx1).on_job_id id tx2 = f.on_job_id id tx2 ∧
    alookup id ((f.on_job_id id tx1).on_job_id id tx2).job_id_filters =
      some tx2 ∧
    (f.one_kind kind tx1).one_kind kind tx2 = f.one_kind kind tx2 ∧
    alookup kind
      ((f.one_kind kind tx1).one_kind kind tx2).oneshot_kind_filters =
      some tx2 := by
  refine ⟨?_, ?_, ?_, ?_⟩
  · simp [MessageFilter.on_job_id, ainsert_ainsert_self]
  · simp [MessageFilter.on_job_id, ainsert_ainsert_self, alookup_ainsert_self]
  · simp [MessageFilter.one_kind, ainsert_ainsert_self]
  · simp [MessageFilter.one_kind, ainsert_ainsert_self, alookup_ainsert_self]

/-- Claim C9: a ring buffer constructed with capacity 0 takes the
at-capacity branch on its very first push (length 0 equals capacity 0): the
push returns `none` (there is no front element to evict) yet the pushed item
is retained, a following `take` returns exactly that item, the
`debug_assert` that length equals capacity after the reinsertion does not
hold, and the buffer holds more items than its configured capacity. -/
theorem ringBuffer_capacity_zero_anomaly :
    (RingBuffer.new Nat 0).items.length = (RingBuffer.new Nat 0).cap ∧
    ((RingBuffer.new Nat 0).push 7).1 = none ∧
    ((RingBuffer.new Nat 0).push 7).2.items = [7] ∧
    ((RingBuffer.new Nat 0).push 7).2.take.1 = [7] ∧
    RingBuffer.pushAssertHolds (RingBuffer.new Nat 0) 7 = false ∧
    0 < ((RingBuffer.new Nat 0).push 7).2.items.length := by
  decide

/-- Claim C1: on a successfully decoded frame the dispatch chain evaluates
routing in the fixed priority order — single-answer-by-id by correlation id,
multi-answer-by-id by correlation id, single-answer-by-kind, notification
decoding for service-method frames, fan-out-by-kind, ring buffer — stopping
at the first match; in particular a frame whose correlation id matches a
single-answer-by-id registration and whose kind matches a fan-out-by-kind
registration is delivered only via the id path and the kind subscribers
receive nothing for it. -/
theorem dispatch_priority_order (f : MessageFilter) (m : RawNetMessage) :
    (∀ tx, alookup m.header.target_job_id f.job_id_filters = some tx →
      (f.dispatchMessage m).2 = Route.jobId tx) ∧
    (alookup m.header.target_job_id f.job_id_filters = none →
      ∀ tx, alookup m.header.target_job_id f.job_id_multi_filters = some tx →
        (f.dispatchMessage m).2 = Route.jobIdMulti tx) ∧
    (alookup m.header.target_job_id f.job_id_filters = none →
      alookup m.header.target_job_id f.job_id_multi_filters = none →
      ∀ tx, alookup m.kind f.oneshot_kind_filters = some tx →
        (f.dispatchMessage m).2 = Route.oneshotKind tx) ∧
    (alookup m.header.target_job_id f.job_id_filters = none →
      alookup m.header.target_job_id f.job_id_multi_filters = none →
      alookup m.kind f.oneshot_kind_filters = none →
      m.kind = k_EMsgServiceMethod →
      ((∀ tx, (f.dispatchMessage m).2 ≠ Route.kindFanout tx) ∧
        (∀ e, (f.dispatchMessage m).2 ≠ Route.buffered e))) ∧
    (alookup m.header.target_job_id f.job_id_filters = none →
      alookup m.header.target_job_id f.job_id_multi_filters = none →
      alookup m.kind f.oneshot_kind_filters = none →
      ¬ m.kind = k_EMsgServiceMethod →
      ∀ tx, alookup m.kind f.kind_filters = some tx →
        (f.dispatchMessage m).2 = Route.kindFanout tx) ∧
    (alookup m.header.target_job_id f.job_id_filters = none →
      alookup m.header.target_job_id f.job_id_multi_filters = none →
      alookup m.kind f.oneshot_kind_filters = none →
      ¬ m.kind = k_EMsgServiceMethod →
      alookup m.kind f.kind_filters = none →
        (f.dispatchMessage m).2 = Route.buffered (f.rest.push m).1) ∧
    (∀ tx btx, alookup m.header.target_job_id f.job_id_filters = some tx →
      alookup m.kind f.kind_filters = some btx →
      ((f.dispatchMessage m).2 = Route.jobId tx ∧
        ∀ btx2, (f.dispatchMessage m).2 ≠ Route.kindFanout btx2)) := by
  refine ⟨?_, ?_, ?_, ?_, ?_, ?_, ?_⟩
  · intro tx h
    simp [MessageFilter.dispatchMessage, h]
  · intro h1 tx h2
    simp [MessageFilter.dispatchMessage, h1, h2]
  · intro h1 h2 tx h3
    simp [MessageFilter.dispatchMessage, h1, h2, h3]
  · intro h1 h2 h3 h4
    have h3' : alookup k_EMsgServiceMethod f.oneshot_kind_filters = none := by
      rw [← h4]
      exact h3
    refine ⟨fun tx => ?_, fun e => ?_⟩ <;>
    · simp [MessageFilter.dispatchMessage, h1, h2, h3, h3', h4]
      cases hn : m.notification with
      | none => simp [hn]
      | some n =>
        cases hl : alookup n.job_name f.notification_filters <;>
          simp [hn, hl]
  · intro h1 h2 h3 h4 tx h5
    simp [MessageFilter.dispatchMessage, h1, h2, h3, h4, h5]
  · intro h1 h2 h3 h4 h5
    simp [MessageFilter.dispatchMessage, h1, h2, h3, h4, h5]
  · intro tx btx h1 h2
    refine ⟨by simp [MessageFilter.dispatchMessage, h1], fun btx2 => ?_⟩
    simp [MessageFilter.dispatchMessage, h1]

/-- Witness for claim C1: a frame whose correlation id matches a
single-answer-by-id entry and whose kind matches a fan-out-by-kind entry is
routed via the id path and not to the kind subscribers. -/
theorem dispatch_priority_order_witness :
    (exFilterC1.dispatchMessage exMsgIdKind).2 = Route.jobId exTxA ∧
    ∀ btx2,
      (exFilterC1.dispatchMessage exMsgIdKind).2 ≠ Route.kindFanout btx2 :=
  (dispatch_priority_order exFilterC1 exMsgIdKind).2.2.2.2.2.2 exTxA exTxB
    (by decide) (by decide)

/-- Claim C3: a frame whose correlation id matches a single-answer-by-id
registration consumes that registration together with the delivery attempt:
the entry is removed from the table no matter whether the send succeeds (the
sender is arbitrary, in particular one whose receiver was already dropped,
which makes the delivery silently discarded rather than an error), and a
second frame with the same correlation id is never delivered via the
single-answer-by-id path on the resulting state, falling to lower-priority
routing instead. -/
theorem job_id_filter_consumed (f : MessageFilter) (m : RawNetMessage)
    (tx : Sender)
    (h : alookup m.header.target_job_id f.job_id_filters = some tx) :
    (f.dispatchMessage m).2 = Route.jobId tx ∧
    (f.dispatchMessage m).1.job_id_filters =
      aremove m.header.target_job_id f.job_id_filters ∧
    alookup m.header.target_job_id (f.dispatchMessage m).1.job_id_filters =
      none ∧
    (∀ m2 : RawNetMessage,
      m2.header.target_job_id = m.header.target_job_id →
      ∀ tx2, ((f.dispatchMessage m).1.dispatchMessage m2).2 ≠
        Route.jobId tx2) := by
  have hstate : (f.dispatchMessage m).1.job_id_filters =
      aremove m.header.target_job_id f.job_id_filters := by
    simp [MessageFilter.dispatchMessage, h]
  refine ⟨by simp [MessageFilter.dispatchMessage, h], hstate, ?_, ?_⟩
  · rw [hstate]
    exact alookup_aremove_self _ _
  · intro m2 hm2 tx2
    apply dispatch_not_jobId
    rw [hm2, hstate]
    exact alookup_aremove_self _ _

/-- Witness for claim C3: after consuming the matching frame, the entry for
id 5 is gone. -/
theorem job_id_filter_consumed_witness :
    (exFilterC1.dispatchMessage exMsgIdKind).2 = Route.jobId exTxA ∧
    alookup (5 : JobId)
      (exFilterC1.dispatchMessage exMsgIdKind).1.job_id_filters = none := by
  have h := job_id_filter_consumed exFilterC1 exMsgIdKind exTxA (by decide)
  exact ⟨h.1, h.2.2.1⟩

/-- Claim C4: a multi-answer-by-id registration for id X receives every
frame with correlation id X while no single-answer-by-id entry for X exists;
each delivery leaves the whole filter state (in particular the entry)
unchanged regardless of the send's outcome; after `complete_job_id_multi X`
removes the entry, a frame with id X is no longer delivered via this
path. -/
theorem job_id_multi_persistent (f : MessageFilter) (X : JobId) (tx : Sender)
    (ms : List RawNetMessage)
    (hjf : alookup X f.job_id_filters = none)
    (hjmf : alookup X f.job_id_multi_filters = some tx)
    (hms : ∀ m ∈ ms, m.header.target_job_id = X) :
    (f.runLoop (ms.map SourceItem.ok)).1 = f ∧
    (f.runLoop (ms.map SourceItem.ok)).2 =
      ms.map (fun _ => LoopEvent.routed (Route.jobIdMulti tx)) ∧
    alookup X (f.complete_job_id_multi X).job_id_multi_filters = none ∧
    (∀ (m2 : RawNetMessage) (tx2 : Sender),
      m2.header.target_job_id = X →
      ((f.complete_job_id_multi X).dispatchMessage m2).2 ≠
        Route.jobIdMulti tx2) := by
  have hdisp : ∀ m2 : RawNetMessage, m2.header.target_job_id = X →
      f.dispatchMessage m2 = (f, Route.jobIdMulti tx) := by
    intro m2 hm2
    simp [MessageFilter.dispatchMessage, hm2, hjf, hjmf]
  have hloop : ∀ ms2 : List RawNetMessage,
      (∀ m ∈ ms2, m.header.target_job_id = X) →
      f.runLoop (ms2.map SourceItem.ok) =
        (f, ms2.map (fun _ => LoopEvent.routed (Route.jobIdMulti tx))) := by
    intro ms2
    induction ms2 with
    | nil => intro _; rfl
    | cons m rest ih =>
      intro hall
      have hm := hall m (by simp)
      have hrest := ih (fun a ha => hall a (by simp [ha]))
      simp only [List.map_cons, MessageFilter.runLoop,
        MessageFilter.processItem, hdisp m hm, hrest]
  refine ⟨?_, ?_, ?_, ?_⟩
  · rw [hloop ms hms]
  · rw [hloop ms hms]
  · simp [MessageFilter.complete_job_id_multi, alookup_aremove_self]
  · intro m2 tx2 hm2
    apply dispatch_not_jobIdMulti
    rw [hm2]
    simp [MessageFilter.complete_job_id_multi, alookup_aremove_self]

/-- Witness for claim C4: two frames with id 4 are both delivered to the
multi-answer registration. -/
theorem job_id_multi_persistent_witness :
    (exFilterC4.runLoop
      [SourceItem.ok exMsgMulti, SourceItem.ok exMsgMulti]).2 =
      [LoopEvent.routed (Route.jobIdMulti exTxA),
        LoopEvent.routed (Route.jobIdMulti exTxA)] := by
  have h := job_id_multi_persistent exFilterC4 4 exTxA
    [exMsgMulti, exMsgMulti] (by decide) (by decide) (by decide)
  exact h.2.1

/-- Claim C5: a generic service-method frame that reaches routing step 4 is
settled there: on decode failure it is discarded with the state unchanged;
on success the notification is broadcast only to the subscription registered
for the decoded event name, and with no such subscription the frame is
discarded; in every case the frame reaches neither the fan-out-by-kind step
nor the ring buffer. -/
theorem notification_routing (f : MessageFilter) (m : RawNetMessage)
    (hjf : alookup m.header.target_job_id f.job_id_filters = none)
    (hjmf : alookup m.header.target_job_id f.job_id_multi_filters = none)
    (hok : alookup m.kind f.oneshot_kind_filters = none)
    (hkind : m.kind = k_EMsgServiceMethod) :
    (m.notification = none →
      f.dispatchMessage m = (f, Route.notificationDecodeFailed)) ∧
    (∀ n, m.notification = some n →
      (∀ tx, alookup n.job_name f.notification_filters = some tx →
        f.dispatchMessage m = (f, Route.toNotification tx n)) ∧
      (alookup n.job_name f.notification_filters = none →
        f.dispatchMessage m = (f, Route.notificationNoSubscriber n))) ∧
    (f.dispatchMessage m).1.rest = f.rest ∧
    (∀ tx, (f.dispatchMessage m).2 ≠ Route.kindFanout tx) ∧
    (∀ e, (f.dispatchMessage m).2 ≠ Route.buffered e) := by
  have hok' : alookup k_EMsgServiceMethod f.oneshot_kind_filters = none := by
    rw [← hkind]
    exact hok
  refine ⟨?_, ?_, ?_, ?_, ?_⟩
  · intro hn
    simp [MessageFilter.dispatchMessage, hjf, hjmf, hok, hok', hkind, hn]
  · intro n hn
    constructor
    · intro tx htx
      simp [MessageFilter.dispatchMessage, hjf, hjmf, hok, hok', hkind, hn,
        htx]
    · intro htx
      simp [MessageFilter.dispatchMessage, hjf, hjmf, hok, hok', hkind, hn,
        htx]
  · simp [MessageFilter.dispatchMessage, hjf, hjmf, hok, hok', hkind]
    cases hn : m.notification with
    | none => simp [hn]
    | some n =>
      cases hl : alookup n.job_name f.notification_filters <;> simp [hn, hl]
  · intro tx
    simp [MessageFilter.dispatchMessage, hjf, hjmf, hok, hok', hkind]
    cases hn : m.notification with
    | none => simp [hn]
    | some n =>
      cases hl : alookup n.job_name f.notification_filters <;> simp [hn, hl]
  · intro e
    simp [MessageFilter.dispatchMessage, hjf, hjmf, hok, hok', hkind]
    cases hn : m.notification with
    | none => simp [hn]
    | some n =>
      cases hl : alookup n.job_name f.notification_filters <;> simp [hn, hl]

/-- Witness for claim C5: a decodable service-method frame with a subscriber
for its event name is broadcast to exactly that subscription, leaving the
state unchanged. -/
theorem notification_routing_witness :
    exFilterC5.dispatchMessage exMsgNotif =
      (exFilterC5, Route.toNotification exTxB exNotif) := by
  have h := notification_routing exFilterC5 exMsgNotif (by decide)
    (by decide) (by decide) (by decide)
  exact (h.2.1 exNotif rfl).1 exTxB (by decide)

/-- Claim C10: the dispatch chain gives the "none" correlation-id sentinel
no special treatment: a single-answer-by-id (respectively multi-answer-by-
id) registration keyed by the sentinel matches every frame whose correlation
id equals the sentinel, with priority over kind-based, notification and
ring-buffer routing (the filter state is arbitrary, so matching
lower-priority registrations may well be present). -/
theorem no_sentinel_special_case (f : MessageFilter) (m : RawNetMessage)
    (tx : Sender) (hid : m.header.target_job_id = jobIdNone) :
    (alookup jobIdNone f.job_id_filters = some tx →
      (f.dispatchMessage m).2 = Route.jobId tx) ∧
    (alookup jobIdNone f.job_id_filters = none →
      alookup jobIdNone f.job_id_multi_filters = some tx →
      (f.dispatchMessage m).2 = Route.jobIdMulti tx) := by
  constructor
  · intro h
    simp [MessageFilter.dispatchMessage, hid, h]
  · intro h1 h2
    simp [MessageFilter.dispatchMessage, hid, h1, h2]

/-- Witness for claim C10: an uncorrelated frame (sentinel correlation id)
is claimed by the sentinel-keyed single-answer entry even though its kind
matches a fan-out entry. -/
theorem no_sentinel_special_case_witness :
    (exFilterC10.dispatchMessage exMsgSentinel).2 = Route.jobId exTxA :=
  (no_sentinel_special_case exFilterC10 exMsgSentinel exTxA rfl).1
    (by decide)

end SteamVent
